import Mathlib

/-!
Shallow embedding of the shopping-list API core (`main.py`).

UUIDs and UTC timestamps are modelled as `Nat`; the relational store is a
pair of row lists (`ShoppingList` rows and `Item` rows).  Each HTTP handler
becomes a pure function from the committed database state (plus the request
data) to a response together with the new committed state; error paths leave
the state unchanged (the transaction is not committed on an exception).

Query translations:
  * `select(ShoppingList).where(open == True, user_id == u).first()`
    becomes `first_open_list`;
  * `select(ShoppingList).where(id == lid, user_id == u).first()`
    becomes `resolve_owned_list`;
  * the relationship `shopping_list.items` becomes a filter on `list_id`.

Primary keys (`primary_key=True` on the `id` columns) are enforced by the
database engine: an insert that collides with an existing key makes the
commit fail, which surfaces as an unhandled exception (`Resp.fault`), and
the transaction is not committed.  `create_list` models this at its commit
point.

Pydantic request validation for `SubmitShoppingList` (`open: bool` required,
`items: Optional[list[SubmitItem]]`) is modelled by
`validate_submit_shopping_list` on a raw wire payload in which both fields
may be null/absent.
-/

namespace ShoppingListAPI

/-- Item submission model `SubmitItem` (main.py): `name` and `open`. -/
structure SubmitItem where
  name : String
  «open» : Bool
deriving Repr, DecidableEq

/-- List submission model `SubmitShoppingList` (main.py) after pydantic
validation; `open` is a required boolean, `items` is optional (nullable). -/
structure SubmitShoppingList where
  «open» : Bool
  items : Option (List SubmitItem)
deriving Repr, DecidableEq

/-- A raw PUT/POST body before pydantic validation: both fields may be
null or absent (`none`). -/
structure RawSubmitShoppingList where
  «open» : Option Bool
  items : Option (List SubmitItem)
deriving Repr, DecidableEq

/-- Pydantic validation of a raw body against `SubmitShoppingList`:
`open : bool` is required, so a null/absent `open` fails validation;
`items` is `Optional` and passes through. -/
def validate_submit_shopping_list (raw : RawSubmitShoppingList) :
    Option SubmitShoppingList :=
  match raw.«open» with
  | none => none
  | some b => some { «open» := b, items := raw.items }

/-- Table row of `ShoppingList` (main.py). -/
structure ShoppingList where
  id : Nat
  user_id : Nat
  «open» : Bool
  created : Nat
  updated : Nat
deriving Repr, DecidableEq

/-- Table row of `Item` (main.py). -/
structure Item where
  id : Nat
  list_id : Nat
  «open» : Bool
  name : String
  created : Nat
  updated : Nat
deriving Repr, DecidableEq

/-- The committed database state: the `shoppinglist` and `item` tables.
(The `shoppinglistuser` table is only read for authentication, which is an
external collaborator here; users are identified by their `Nat` id.) -/
structure DB where
  lists : List ShoppingList
  items : List Item
deriving Repr, DecidableEq

/-- Response outcomes of the handlers.  `ok` is HTTP 200 with a body,
`noContent` is 204 (the handler still returns the body), `badRequest` 400,
`forbidden` 403, `notFound` 404, `validationError` the pydantic 422, and
`fault` an unhandled exception (surfaced by the framework as a 500). -/
inductive Resp (α : Type) where
  | ok : α → Resp α
  | noContent : α → Resp α
  | badRequest : Resp α
  | forbidden : Resp α
  | notFound : Resp α
  | validationError : Resp α
  | fault : Resp α
deriving Repr, DecidableEq

/-- Executable uniqueness check on a key list (used to model the
database's primary-key constraint at commit time). -/
def nodup_keys : List Nat → Bool
  | [] => true
  | x :: xs => !(xs.contains x) && nodup_keys xs

/-- The query
`select(ShoppingList).where(ShoppingList.open == True, ShoppingList.user_id == user_id).first()`
used by `create_list` and `update_list`. -/
def first_open_list (db : DB) (user_id : Nat) : Option ShoppingList :=
  db.lists.find? (fun l => l.«open» && l.user_id == user_id)

/-- The ownership-scoped lookup
`select(ShoppingList).where(ShoppingList.id == list_id, ShoppingList.user_id == user_id).first()`
used by `update_list`, `get_items` and `update_item`. -/
def resolve_owned_list (db : DB) (user_id list_id : Nat) : Option ShoppingList :=
  db.lists.find? (fun l => l.id == list_id && l.user_id == user_id)

/-- The row `ShoppingList(open=True, user_id=current_user.id)` inserted by
`create_list`: the submitted list-level `open` value is not consulted.
`new_list_id` stands for the generated `uuid4`, `t` for the model's default
timestamp. -/
def new_list_of (user_id new_list_id t : Nat) : ShoppingList :=
  { id := new_list_id, user_id := user_id, «open» := true,
    created := t, updated := t }

/-- The `Item(list_id=..., name=submit_item.name, open=submit_item.open)`
rows inserted by `create_list`, one per submitted item in submission order;
`new_item_id` maps the item's position to its generated `uuid4`. -/
def new_items_of (items : List SubmitItem) (new_list_id : Nat)
    (new_item_id : Nat → Nat) (t : Nat) : List Item :=
  items.enum.map (fun p =>
    { id := new_item_id p.1, list_id := new_list_id,
      «open» := p.2.«open», name := p.2.name, created := t, updated := t })

/-- The database's primary-key constraint at `create_list`'s commit: the new
list id and the new item ids must not collide with existing keys (or each
other); otherwise the commit fails. -/
def pk_fresh (db : DB) (new_list_id : Nat) (newItems : List Item) : Bool :=
  !((db.lists.map (fun l => l.id)).contains new_list_id)
    && nodup_keys (newItems.map (fun i => i.id))
    && (newItems.map (fun i => i.id)).all
        (fun i => !((db.items.map (fun j => j.id)).contains i))

/-- Handler `create_list` of `POST /lists/` (main.py).
Checks, in source order: the open-list conflict (403), the
`assert items is not None` (an `AssertionError` is an unhandled fault), the
empty-items validation (400); then inserts the list (forced `open=True`)
and its items and commits.  A primary-key collision makes the commit fail
(fault) without persisting. -/
def create_list (db : DB) (user_id : Nat) (submit : SubmitShoppingList)
    (new_list_id : Nat) (new_item_id : Nat → Nat) (t : Nat) :
    Resp ShoppingList × DB :=
  match first_open_list db user_id with
  | some _ => (.forbidden, db)
  | none =>
    match submit.items with
    | none => (.fault, db)
    | some items =>
      if items.length == 0 then (.badRequest, db)
      else if pk_fresh db new_list_id (new_items_of items new_list_id new_item_id t) then
        (.ok (new_list_of user_id new_list_id t),
         { lists := db.lists ++ [new_list_of user_id new_list_id t],
           items := db.items ++ new_items_of items new_list_id new_item_id t })
      else (.fault, db)

/-- Handler `update_list` of `PUT /lists/{list_id}/` (main.py), after pydantic
validation; `submit_open` is the (dynamically typed) `open` value the handler
body reads.  In source order: if `open` is truthy, the open-list query is run
and any hit is a 400 — before and without excluding the target list; then the
ownership lookup (404); then the dead-in-practice `open is None` branch
(204, no mutation); otherwise the `open` flag is assigned and committed.
The handler never writes the `updated` column (`t` is the request time,
which the code does not use). -/
def update_list (db : DB) (user_id : Nat) (submit_open : Option Bool)
    (list_id : Nat) (t : Nat) : Resp ShoppingList × DB :=
  if submit_open == some true && (first_open_list db user_id).isSome then
    (.badRequest, db)
  else
    match resolve_owned_list db user_id list_id with
    | none => (.notFound, db)
    | some sl =>
      match submit_open with
      | none => (.noContent sl, db)
      | some b =>
        (.ok { sl with «open» := b },
         { db with lists := db.lists.map (fun l =>
             if l.id == sl.id then { sl with «open» := b } else l) })

/-- The `PUT /lists/{list_id}/` endpoint: pydantic validation of the raw
body (`open: bool` is required, so null/absent `open` is a 422) followed by
the `update_list` handler, which therefore always receives an actual
boolean. -/
def update_list_endpoint (db : DB) (user_id : Nat) (raw : RawSubmitShoppingList)
    (list_id : Nat) (t : Nat) : Resp ShoppingList × DB :=
  match validate_submit_shopping_list raw with
  | none => (.validationError, db)
  | some s => update_list db user_id (some s.«open») list_id t

/-- Handler `get_items` of `GET /lists/{list_id}/items/` (main.py): the
ownership lookup (404 on failure, also for foreign lists), then the
relationship `shopping_list.items`. -/
def get_items (db : DB) (user_id list_id : Nat) : Resp (List Item) :=
  match resolve_owned_list db user_id list_id with
  | none => .notFound
  | some sl => .ok (db.items.filter (fun i => i.list_id == sl.id))

/-- Handler `update_item` of `PUT /lists/{list_id}/items/{item_id}/` (main.py).
The path parameters are untyped strings parsed with `uuid.UUID(...)` inside
the handler; a raw identifier is modelled as `Option Nat`, `none` standing
for a malformed string on which `uuid.UUID` raises (an unhandled fault).
Parse points follow the source: `list_id` is parsed in the first query,
`item_id` only in the item query after the list resolved.  Only the item's
`open` flag is assigned before commit; `name` and `updated` are not
written. -/
def update_item (db : DB) (user_id : Nat) (list_id item_id : Option Nat)
    (submit : SubmitItem) (t : Nat) : Resp Item × DB :=
  match list_id with
  | none => (.fault, db)
  | some lid =>
    match resolve_owned_list db user_id lid with
    | none => (.notFound, db)
    | some _ =>
      match item_id with
      | none => (.fault, db)
      | some iid =>
        match db.items.find? (fun i => i.id == iid && i.list_id == lid) with
        | none => (.notFound, db)
        | some it =>
          (.ok { it with «open» := submit.«open» },
           { db with items := db.items.map (fun j =>
               if j.id == it.id then { it with «open» := submit.«open» } else j) })

/-- One sequentially executed operation of the core (the state-changing
handlers), with the request data and the generated identifiers/timestamp it
was run with. -/
inductive Op where
  | createList (user_id : Nat) (submit : SubmitShoppingList)
      (new_list_id : Nat) (new_item_id : Nat → Nat) (t : Nat)
  | updateList (user_id : Nat) (submit_open : Option Bool) (list_id : Nat) (t : Nat)
  | updateItem (user_id : Nat) (list_id item_id : Option Nat)
      (submit : SubmitItem) (t : Nat)

/-- The committed state after one operation (error paths commit nothing). -/
def Op.apply (db : DB) : Op → DB
  | .createList u s nl ni t => (create_list db u s nl ni t).2
  | .updateList u o lid t => (update_list db u o lid t).2
  | .updateItem u lid iid s t => (update_item db u lid iid s t).2

/-- The committed state after a sequence of sequentially executed
operations. -/
def apply_ops (db : DB) (ops : List Op) : DB := ops.foldl Op.apply db

/-- Number of lists owned by `user_id` with `open = true`
(INV-1 bounds this by one). -/
def open_count (db : DB) (user_id : Nat) : Nat :=
  db.lists.countP (fun l => l.«open» && l.user_id == user_id)

/-- Erase a list (and its items) from the state: the companion state in
which a referenced list "does not exist at all", used to compare against
the state in which it exists under a different owner. -/
def remove_list (db : DB) (list_id : Nat) : DB :=
  { lists := db.lists.filter (fun l => !(l.id == list_id)),
    items := db.items.filter (fun i => !(i.list_id == list_id)) }

/-- Erase an item from the state: the companion state in which a
referenced item "does not exist at all", used to compare against the
state in which it exists under a different owner's list. -/
def remove_item (db : DB) (item_id : Nat) : DB :=
  { db with items := db.items.filter (fun i => !(i.id == item_id)) }

/-- Example state: user 7 owns the open list 1 holding item 3. -/
def exdb : DB :=
  { lists := [{ id := 1, user_id := 7, «open» := true, created := 0, updated := 0 }],
    items := [{ id := 3, list_id := 1, «open» := true, name := "Milk",
                created := 0, updated := 0 }] }

/-- Example state: user 7 owns the closed list 1 holding item 3
(no open list). -/
def exdb_closed : DB :=
  { lists := [{ id := 1, user_id := 7, «open» := false, created := 0, updated := 0 }],
    items := [{ id := 3, list_id := 1, «open» := true, name := "Milk",
                created := 0, updated := 0 }] }

/-- Example state: user 7 owns the open list 1; user 9 owns the open
list 2 (a foreign list from user 7's point of view). -/
def exdb_foreign : DB :=
  { lists := [{ id := 1, user_id := 7, «open» := true, created := 0, updated := 0 },
              { id := 2, user_id := 9, «open» := true, created := 0, updated := 0 }],
    items := [] }

/-- Example state: user 7 owns the open list 1 holding item 3; user 9
owns the open list 2 holding item 4 — from user 7's point of view, list 2
is a foreign list and item 4 a foreign item under a resolvable own
list 1. -/
def exdb_foreign_items : DB :=
  { lists := [{ id := 1, user_id := 7, «open» := true, created := 0, updated := 0 },
              { id := 2, user_id := 9, «open» := true, created := 0, updated := 0 }],
    items := [{ id := 3, list_id := 1, «open» := true, name := "Milk",
                created := 0, updated := 0 },
              { id := 4, list_id := 2, «open» := true, name := "Jam",
                created := 0, updated := 0 }] }

/-! ### Lemmas about the queries -/

theorem open_count_eq_zero {db : DB} {u : Nat}
    (h : first_open_list db u = none) : open_count db u = 0 := by
  unfold first_open_list at h
  rw [List.find?_eq_none] at h
  rw [open_count, List.countP_eq_zero]
  exact h

theorem first_open_list_isSome {db : DB} {u : Nat} {sl : ShoppingList}
    (hmem : sl ∈ db.lists) (huser : sl.user_id = u)
    (hopen : sl.«open» = true) : (first_open_list db u).isSome = true := by
  rw [first_open_list, List.find?_isSome]
  exact ⟨sl, hmem, by simp [hopen, huser]⟩

theorem countP_key_le_one {α : Type} (f : α → Nat) (l : List α)
    (h : (l.map f).Nodup) (x : Nat) :
    l.countP (fun a => f a == x) ≤ 1 := by
  induction l with
  | nil => simp
  | cons a tl ih =>
    rw [List.map_cons, List.nodup_cons] at h
    obtain ⟨hnotin, hnd⟩ := h
    rw [List.countP_cons]
    by_cases hax : f a = x
    · have hz : tl.countP (fun b => f b == x) = 0 := by
        rw [List.countP_eq_zero]
        intro b hb hbe
        have hfb : f b = x := by simpa using hbe
        exact hnotin (by rw [hax, ← hfb]; exact List.mem_map_of_mem f hb)
      simp [hz, hax]
    · simpa [hax] using ih hnd

/-! ### Branch analyses of the three mutating operations -/

theorem create_list_cases (db : DB) (u : Nat) (s : SubmitShoppingList)
    (nl : Nat) (ni : Nat → Nat) (t : Nat) :
    ((create_list db u s nl ni t).2 = db
      ∧ ∀ sl, (create_list db u s nl ni t).1 ≠ Resp.ok sl)
    ∨ (∃ items, first_open_list db u = none ∧ s.items = some items
        ∧ ¬(items.length == 0) = true
        ∧ pk_fresh db nl (new_items_of items nl ni t) = true
        ∧ create_list db u s nl ni t
            = (Resp.ok (new_list_of u nl t),
               { lists := db.lists ++ [new_list_of u nl t],
                 items := db.items ++ new_items_of items nl ni t })) := by
  cases hfo : first_open_list db u with
  | some sl => left; constructor <;> simp [create_list, hfo]
  | none =>
    cases hit : s.items with
    | none => left; constructor <;> simp [create_list, hfo, hit]
    | some items =>
      by_cases hlen : (items.length == 0) = true
      · left; constructor <;> simp [create_list, hfo, hit, hlen]
      · by_cases hpk : pk_fresh db nl (new_items_of items nl ni t) = true
        · right
          exact ⟨items, rfl, rfl, hlen, hpk,
            by simp [create_list, hfo, hit, hlen, hpk]⟩
        · left; constructor <;> simp [create_list, hfo, hit, hlen, hpk]

theorem update_list_cases (db : DB) (u : Nat) (o : Option Bool) (lid t : Nat) :
    ((update_list db u o lid t).2 = db
      ∧ ∀ sl', (update_list db u o lid t).1 ≠ Resp.ok sl')
    ∨ (∃ sl b, o = some b
        ∧ resolve_owned_list db u lid = some sl
        ∧ ¬(o == some true && (first_open_list db u).isSome) = true
        ∧ update_list db u o lid t
            = (Resp.ok { sl with «open» := b },
               { db with lists := db.lists.map (fun l =>
                   if l.id == sl.id then { sl with «open» := b } else l) })) := by
  by_cases hguard : (o == some true && (first_open_list db u).isSome) = true
  · left; constructor <;> simp [update_list, hguard]
  · cases hres : resolve_owned_list db u lid with
    | none => left; constructor <;> simp [update_list, hguard, hres]
    | some sl =>
      cases o with
      | none => left; constructor <;> simp [update_list, hguard, hres]
      | some b =>
        right
        refine ⟨sl, b, rfl, rfl, hguard, ?_⟩
        unfold update_list
        rw [if_neg hguard, hres]

theorem update_item_cases (db : DB) (u : Nat) (lid iid : Option Nat)
    (s : SubmitItem) (t : Nat) :
    ((update_item db u lid iid s t).2 = db
      ∧ ∀ it', (update_item db u lid iid s t).1 ≠ Resp.ok it')
    ∨ (∃ l i it, lid = some l ∧ iid = some i
        ∧ db.items.find? (fun j => j.id == i && j.list_id == l) = some it
        ∧ update_item db u lid iid s t
            = (Resp.ok { it with «open» := s.«open» },
               { db with items := db.items.map (fun j =>
                   if j.id == it.id then { it with «open» := s.«open» } else j) })) := by
  cases lid with
  | none => left; constructor <;> simp [update_item]
  | some l =>
    cases hres : resolve_owned_list db u l with
    | none => left; constructor <;> simp [update_item, hres]
    | some sl =>
      cases iid with
      | none => left; constructor <;> simp [update_item, hres]
      | some i =>
        cases hfind : db.items.find? (fun j => j.id == i && j.list_id == l) with
        | none => left; constructor <;> simp [update_item, hres, hfind]
        | some it =>
          right
          exact ⟨l, i, it, rfl, rfl, hfind,
            by simp [update_item, hres, hfind]⟩

theorem update_item_lists (db : DB) (u : Nat) (lid iid : Option Nat)
    (s : SubmitItem) (t : Nat) :
    (update_item db u lid iid s t).2.lists = db.lists := by
  rcases update_item_cases db u lid iid s t with ⟨heq, _⟩ | ⟨l, i, it, _, _, _, heq⟩
  · rw [heq]
  · rw [heq]

/-! ### Preservation of INV-1 (at most one open list per user) by each
operation, and preservation of primary-key uniqueness of the list table -/

theorem open_count_create_list (db : DB) (u u' : Nat) (s : SubmitShoppingList)
    (nl : Nat) (ni : Nat → Nat) (t : Nat) (h : open_count db u ≤ 1) :
    open_count (create_list db u' s nl ni t).2 u ≤ 1 := by
  rcases create_list_cases db u' s nl ni t with ⟨heq, _⟩ | ⟨items, hfo, hit, hlen, hpk, heq⟩
  · rw [heq]; exact h
  · have heq2 : (create_list db u' s nl ni t).2
        = { lists := db.lists ++ [new_list_of u' nl t],
            items := db.items ++ new_items_of items nl ni t } := by rw [heq]
    rw [heq2]
    have h0 : open_count db u' = 0 := open_count_eq_zero hfo
    rw [open_count] at h0 h ⊢
    simp only [List.countP_append]
    by_cases huu : u' = u
    · subst huu
      simp [List.countP_cons, new_list_of, h0]
    · have hne : ((new_list_of u' nl t).«open»
          && (new_list_of u' nl t).user_id == u) = false := by
        simp [new_list_of, huu]
      simpa [List.countP_cons, hne] using h

theorem open_count_update_list (db : DB) (u u' : Nat) (o : Option Bool)
    (lid t : Nat) (hwf : (db.lists.map (fun l => l.id)).Nodup)
    (h : open_count db u ≤ 1) :
    open_count (update_list db u' o lid t).2 u ≤ 1 := by
  rcases update_list_cases db u' o lid t with ⟨heq, _⟩ | ⟨sl, b, ho, hres, hguard, heq⟩
  · rw [heq]; exact h
  · have heq2 : (update_list db u' o lid t).2
        = { db with lists := db.lists.map (fun l =>
            if l.id == sl.id then { sl with «open» := b } else l) } := by rw [heq]
    rw [heq2]
    unfold resolve_owned_list at hres
    have hu' : sl.user_id = u' := by
      have hp := List.find?_some hres
      simp only [Bool.and_eq_true, beq_iff_eq] at hp
      exact hp.2
    rw [open_count] at h ⊢
    simp only [List.countP_map]
    cases b with
    | false =>
      refine le_trans (List.countP_mono_left ?_) h
      intro a _ hpa
      simp only [Function.comp] at hpa
      by_cases hid : (a.id == sl.id) = true
      · rw [if_pos hid] at hpa; simp at hpa
      · rw [if_neg hid] at hpa; exact hpa
    | true =>
      have hnone : first_open_list db u' = none := by
        cases hfo : first_open_list db u' with
        | none => rfl
        | some x => rw [ho, hfo] at hguard; simp at hguard
      have hall : ∀ l ∈ db.lists, (l.«open» && l.user_id == u') = false := by
        intro l hl
        unfold first_open_list at hnone
        have := List.find?_eq_none.mp hnone l hl
        simpa using this
      by_cases huu : u' = u
      · subst huu
        refine le_trans (List.countP_mono_left ?_)
          (countP_key_le_one (fun l => l.id) db.lists hwf sl.id)
        intro a ha hpa
        simp only [Function.comp] at hpa
        by_cases hid : (a.id == sl.id) = true
        · exact hid
        · rw [if_neg hid] at hpa
          rw [hall a ha] at hpa
          simp at hpa
      · refine le_trans (List.countP_mono_left ?_) h
        intro a ha hpa
        simp only [Function.comp] at hpa
        by_cases hid : (a.id == sl.id) = true
        · rw [if_pos hid] at hpa
          simp only [Bool.and_eq_true, beq_iff_eq] at hpa
          exact absurd (hu' ▸ hpa.2) huu
        · rw [if_neg hid] at hpa; exact hpa

theorem open_count_update_item (db : DB) (u u' : Nat) (lid iid : Option Nat)
    (s : SubmitItem) (t : Nat) (h : open_count db u ≤ 1) :
    open_count (update_item db u' lid iid s t).2 u ≤ 1 := by
  rw [open_count, update_item_lists]
  exact h

theorem wf_lists_create_list (db : DB) (u : Nat) (s : SubmitShoppingList)
    (nl : Nat) (ni : Nat → Nat) (t : Nat)
    (hwf : (db.lists.map (fun l => l.id)).Nodup) :
    ((create_list db u s nl ni t).2.lists.map (fun l => l.id)).Nodup := by
  rcases create_list_cases db u s nl ni t with ⟨heq, _⟩ | ⟨items, hfo, hit, hlen, hpk, heq⟩
  · rw [heq]; exact hwf
  · have heq2 : (create_list db u s nl ni t).2
        = { lists := db.lists ++ [new_list_of u nl t],
            items := db.items ++ new_items_of items nl ni t } := by rw [heq]
    rw [heq2]
    have hnin : nl ∉ db.lists.map (fun l => l.id) := by
      simp only [pk_fresh, Bool.and_eq_true, Bool.not_eq_true'] at hpk
      simpa using hpk.1.1
    simp [List.nodup_append, new_list_of, hwf, hnin]

theorem wf_lists_update_list (db : DB) (u : Nat) (o : Option Bool)
    (lid t : Nat) (hwf : (db.lists.map (fun l => l.id)).Nodup) :
    ((update_list db u o lid t).2.lists.map (fun l => l.id)).Nodup := by
  rcases update_list_cases db u o lid t with ⟨heq, _⟩ | ⟨sl, b, ho, hres, hguard, heq⟩
  · rw [heq]; exact hwf
  · have heq2 : (update_list db u o lid t).2
        = { db with lists := db.lists.map (fun l =>
            if l.id == sl.id then { sl with «open» := b } else l) } := by rw [heq]
    rw [heq2]
    have hids : (db.lists.map (fun l =>
        if l.id == sl.id then { sl with «open» := b } else l)).map
          (fun l => l.id) = db.lists.map (fun l => l.id) := by
      rw [List.map_map]
      apply List.map_congr_left
      intro a _
      by_cases hid : (a.id == sl.id) = true
      · simp only [Function.comp, if_pos hid]
        exact (beq_iff_eq.mp hid).symm
      · simp only [Function.comp, if_neg hid]
    show ((db.lists.map (fun l =>
        if l.id == sl.id then { sl with «open» := b } else l)).map
          (fun l => l.id)).Nodup
    rw [hids]
    exact hwf

theorem wf_lists_update_item (db : DB) (u : Nat) (lid iid : Option Nat)
    (s : SubmitItem) (t : Nat)
    (hwf : (db.lists.map (fun l => l.id)).Nodup) :
    ((update_item db u lid iid s t).2.lists.map (fun l => l.id)).Nodup := by
  rw [update_item_lists]
  exact hwf

theorem inv_preserved_aux (ops : List Op) :
    ∀ db : DB, ∀ u : Nat,
      (db.lists.map (fun l => l.id)).Nodup → open_count db u ≤ 1 →
      ((apply_ops db ops).lists.map (fun l => l.id)).Nodup
        ∧ open_count (apply_ops db ops) u ≤ 1 := by
  induction ops with
  | nil => exact fun db u hwf h => ⟨hwf, h⟩
  | cons op rest ih =>
    intro db u hwf h
    have hwf' : ((Op.apply db op).lists.map (fun l => l.id)).Nodup := by
      cases op with
      | createList u' s nl ni t => exact wf_lists_create_list db u' s nl ni t hwf
      | updateList u' o lid t => exact wf_lists_update_list db u' o lid t hwf
      | updateItem u' lid iid s t => exact wf_lists_update_item db u' lid iid s t hwf
    have h' : open_count (Op.apply db op) u ≤ 1 := by
      cases op with
      | createList u' s nl ni t => exact open_count_create_list db u u' s nl ni t h
      | updateList u' o lid t => exact open_count_update_list db u u' o lid t hwf h
      | updateItem u' lid iid s t => exact open_count_update_item db u u' lid iid s t h
    exact ih (Op.apply db op) u hwf' h'

/-- C1: for every user and every sequence of sequentially executed
operations (`create_list`, `update_list`, `update_item`) starting from a
committed state in which the user owns at most one open list (and the list
table's primary keys are unique), the user owns at most one `ShoppingList`
with `open = true` in the resulting committed state; since the sequence is
universally quantified, this covers every committed state along any run. -/
theorem open_list_invariant_preserved (db : DB) (u : Nat) (ops : List Op)
    (hwf : (db.lists.map (fun l => l.id)).Nodup)
    (hinv : open_count db u ≤ 1) :
    open_count (apply_ops db ops) u ≤ 1 :=
  (inv_preserved_aux ops db u hwf hinv).2

/-- Witness for C1 at a concrete state and operation sequence. -/
theorem open_list_invariant_preserved_witness :
    (((DB.mk [] []).lists.map (fun l => l.id)).Nodup
        ∧ open_count (DB.mk [] []) 7 ≤ 1)
      ∧ open_count (apply_ops (DB.mk [] [])
          [Op.createList 7 ⟨true, some [⟨"Milk", true⟩]⟩ 1 (fun i => 10 + i) 0,
           Op.updateList 7 (some false) 1 1,
           Op.createList 7 ⟨false, some [⟨"Tea", false⟩]⟩ 2 (fun i => 20 + i) 2]) 7 ≤ 1 :=
  ⟨⟨by decide, by decide⟩,
   open_list_invariant_preserved (DB.mk [] []) 7
     [Op.createList 7 ⟨true, some [⟨"Milk", true⟩]⟩ 1 (fun i => 10 + i) 0,
      Op.updateList 7 (some false) 1 1,
      Op.createList 7 ⟨false, some [⟨"Tea", false⟩]⟩ 2 (fun i => 20 + i) 2]
     (by decide) (by decide)⟩

/-- C2 counterexample: user 7's only list (id 1) is open; calling
`update_list` on that very list with `requested_open = true` signals the
bad-request conflict instead of succeeding as a no-op — the invariant
query runs before resolving the target and finds the target itself. -/
theorem update_open_on_open_list_conflicts_cex :
    update_list exdb 7 (some true) 1 0 = (Resp.badRequest, exdb) := by decide

/-- C2 (amended): for every user owning an open list, calling `update_list`
on that list itself with `requested_open = true` is rejected with the
bad-request conflict: the open-list query does not exclude the target, so
the target's own openness triggers the conflict even when no second open
list exists. -/
theorem update_open_on_open_list_conflicts (db : DB) (u t : Nat)
    (sl : ShoppingList) (hmem : sl ∈ db.lists) (huser : sl.user_id = u)
    (hopen : sl.«open» = true) :
    update_list db u (some true) sl.id t = (Resp.badRequest, db) := by
  have hsome : (first_open_list db u).isSome = true :=
    first_open_list_isSome hmem huser hopen
  simp [update_list, hsome]

/-- Witness for C2's amended theorem at a concrete state. -/
theorem update_open_on_open_list_conflicts_witness :
    ((⟨1, 7, true, 0, 0⟩ : ShoppingList) ∈ exdb.lists
        ∧ (⟨1, 7, true, 0, 0⟩ : ShoppingList).user_id = 7
        ∧ (⟨1, 7, true, 0, 0⟩ : ShoppingList).«open» = true)
      ∧ update_list exdb 7 (some true) (⟨1, 7, true, 0, 0⟩ : ShoppingList).id 0
          = (Resp.badRequest, exdb) :=
  ⟨⟨by decide, rfl, rfl⟩,
   update_open_on_open_list_conflicts exdb 7 0 ⟨1, 7, true, 0, 0⟩ (by decide) rfl rfl⟩

/-- C3: the pydantic model `SubmitShoppingList` declares `open: bool` as a
required field, so a PUT body whose `open` is null or absent is rejected by
validation (422) and never reaches the handler; the handler's
`open is None` branch — which would return the unmodified list with a 204
no-mutation outcome exactly as the spec describes — is dead code (second
conjunct, evaluated at a concrete state). -/
theorem update_list_null_open_validation_error :
    (∀ db : DB, ∀ u lid t : Nat, ∀ items : Option (List SubmitItem),
        update_list_endpoint db u ⟨none, items⟩ lid t = (Resp.validationError, db))
      ∧ update_list exdb 7 none 1 0 = (Resp.noContent ⟨1, 7, true, 0, 0⟩, exdb) :=
  ⟨fun db u lid t items => rfl, by decide⟩

/-- C4 counterexample: user 7 owns the open list 1; `update_list` with the
unresolvable list id 99 and `requested_open = true` yields the bad-request
conflict, not the claimed not-found outcome — the invariant check runs
before ownership resolution. -/
theorem update_list_unowned_not_found_cex :
    resolve_owned_list exdb 7 99 = none
      ∧ update_list exdb 7 (some true) 99 0 = (Resp.badRequest, exdb)
      ∧ (Resp.badRequest : Resp ShoppingList) ≠ Resp.notFound := by decide

/-- C4 (amended): a call to `update_list` whose `list_id` does not resolve
to a list owned by the caller ends in the not-found error — provided the
prior open-list conflict check does not fire first, i.e. unless
`requested_open = true` while the caller owns an open list (in which case
the outcome is the bad-request conflict instead, the counterexample). -/
theorem update_list_unowned_not_found (db : DB) (u : Nat) (o : Option Bool)
    (lid t : Nat) (hres : resolve_owned_list db u lid = none)
    (hguard : o = some true → first_open_list db u = none) :
    update_list db u o lid t = (Resp.notFound, db) := by
  have hg : (o == some true && (first_open_list db u).isSome) = false := by
    cases o with
    | none => rfl
    | some b =>
      cases b with
      | false => rfl
      | true => rw [hguard rfl]; rfl
  simp [update_list, hg, hres]

/-- Witness for C4's amended theorem at a concrete state. -/
theorem update_list_unowned_not_found_witness :
    resolve_owned_list exdb_closed 7 99 = none
      ∧ update_list exdb_closed 7 (some true) 99 0 = (Resp.notFound, exdb_closed) :=
  ⟨by decide,
   update_list_unowned_not_found exdb_closed 7 (some true) 99 0 (by decide)
     (fun _ => by decide)⟩

/-- C5 counterexample: user 7 owns the open list 1; creating a list with an
empty item sequence is rejected with the forbidden conflict (403), not the
claimed validation error — the open-list check runs before the empty-items
check. -/
theorem create_list_empty_items_cex :
    first_open_list exdb 7 = some ⟨1, 7, true, 0, 0⟩
      ∧ create_list exdb 7 ⟨true, some []⟩ 5 (fun i => 100 + i) 0
          = (Resp.forbidden, exdb)
      ∧ (Resp.forbidden : Resp ShoppingList) ≠ Resp.badRequest := by decide

/-- C5 (amended): when the caller owns no open list (so the conflict check
passes), creating a list with an empty item sequence fails with the
bad-request validation error, for every requested `open` flag; when an open
list exists, the forbidden conflict takes precedence (the
counterexample). -/
theorem create_list_empty_items_bad_request (db : DB) (u : Nat) (b : Bool)
    (nl : Nat) (ni : Nat → Nat) (t : Nat)
    (hfo : first_open_list db u = none) :
    create_list db u ⟨b, some []⟩ nl ni t = (Resp.badRequest, db) := by
  simp [create_list, hfo]

/-- Witness for C5's amended theorem at a concrete state. -/
theorem create_list_empty_items_bad_request_witness :
    first_open_list exdb_closed 7 = none
      ∧ create_list exdb_closed 7 ⟨true, some []⟩ 5 (fun i => 100 + i) 0
          = (Resp.badRequest, exdb_closed) :=
  ⟨by decide,
   create_list_empty_items_bad_request exdb_closed 7 true 5 (fun i => 100 + i) 0
     (by decide)⟩

/-- C9: the code reaches unhandled faults on these valid-per-model inputs:
`create_list` with a null `items` field fails its own
`assert submit_shopping_list.items is not None`, and `update_item` with a
malformed (non-UUID) `list_id` or `item_id` raises from `uuid.UUID(...)`;
none of them is mapped to a validation or not-found error. -/
theorem malformed_inputs_unhandled_fault :
    create_list exdb_closed 7 ⟨true, none⟩ 5 (fun i => 100 + i) 0
        = (Resp.fault, exdb_closed)
      ∧ update_item exdb_closed 7 none (some 3) ⟨"Milk", false⟩ 0
          = (Resp.fault, exdb_closed)
      ∧ update_item exdb_closed 7 (some 1) none ⟨"Milk", false⟩ 0
          = (Resp.fault, exdb_closed) := by decide

/-! ### Frame lemmas: updating one row by primary key preserves any
observation the replacement row agrees on -/

theorem map_replace_preserves {α β : Type} (key : α → Nat) (g : α → β)
    (l : List α) (hwf : (l.map key).Nodup) (a0 repl : α)
    (hmem : a0 ∈ l) (hkey : key repl = key a0) (hobs : g repl = g a0) :
    (l.map (fun x => if key x == key a0 then repl else x)).map g = l.map g := by
  rw [List.map_map]
  apply List.map_congr_left
  intro a ha
  by_cases hid : (key a == key a0) = true
  · have haeq : a = a0 := List.inj_on_of_nodup_map hwf ha hmem (beq_iff_eq.mp hid)
    subst haeq
    simp [Function.comp, hid, hobs]
  · simp [Function.comp, hid]

/-- C6 counterexample: user 7 owns the open list 1, user 9 owns list 2.
Calling `update_list` on the foreign list 2 with `requested_open = true`
produces the same outcome whether list 2 exists under the other owner or
does not exist at all — but that common outcome is the bad-request
conflict, not the not-found outcome the claim asserts. -/
theorem foreign_absent_same_outcome_cex :
    (update_list exdb_foreign 7 (some true) 2 0).1 = Resp.badRequest
      ∧ (update_list (remove_list exdb_foreign 2) 7 (some true) 2 0).1
          = Resp.badRequest
      ∧ (Resp.badRequest : Resp ShoppingList) ≠ Resp.notFound := by decide

theorem foreign_list_part (db : DB) (u lid : Nat)
    (hforeign : ∀ l ∈ db.lists, l.id = lid → l.user_id ≠ u) :
    (get_items db u lid = Resp.notFound
        ∧ get_items (remove_list db lid) u lid = Resp.notFound)
      ∧ (∀ iid' : Nat, ∀ s : SubmitItem, ∀ t : Nat,
          (update_item db u (some lid) (some iid') s t).1 = Resp.notFound
            ∧ (update_item (remove_list db lid) u (some lid) (some iid') s t).1
                = Resp.notFound)
      ∧ (∀ o : Option Bool, ∀ t : Nat,
          (update_list db u o lid t).1
              = (update_list (remove_list db lid) u o lid t).1
            ∧ (update_list db u o lid t).1 ≠ Resp.forbidden) := by
  have h1 : resolve_owned_list db u lid = none := by
    unfold resolve_owned_list
    rw [List.find?_eq_none]
    intro l hl hpl
    simp only [Bool.and_eq_true, beq_iff_eq] at hpl
    exact hforeign l hl hpl.1 hpl.2
  have hmemfil : ∀ l : ShoppingList, l ∈ (remove_list db lid).lists → l.id ≠ lid := by
    intro l hl
    simp only [remove_list, List.mem_filter, Bool.not_eq_true'] at hl
    simpa using hl.2
  have h2 : resolve_owned_list (remove_list db lid) u lid = none := by
    unfold resolve_owned_list
    rw [List.find?_eq_none]
    intro l hl hpl
    simp only [Bool.and_eq_true, beq_iff_eq] at hpl
    exact hmemfil l hl hpl.1
  have h3 : (first_open_list (remove_list db lid) u).isSome
      = (first_open_list db u).isSome := by
    unfold first_open_list
    by_cases hex : ∃ x ∈ db.lists, (x.«open» && x.user_id == u) = true
    · obtain ⟨x, hx, hpx⟩ := hex
      have hx' : x ∈ (remove_list db lid).lists := by
        have hxid : x.id ≠ lid := by
          simp only [Bool.and_eq_true, beq_iff_eq] at hpx
          intro hcontra
          exact hforeign x hx hcontra hpx.2
        simp only [remove_list, List.mem_filter, Bool.not_eq_true']
        exact ⟨hx, by simpa using hxid⟩
      rw [List.find?_isSome.mpr ⟨x, hx', hpx⟩, List.find?_isSome.mpr ⟨x, hx, hpx⟩]
    · push_neg at hex
      have ha : db.lists.find? (fun l => l.«open» && l.user_id == u) = none := by
        rw [List.find?_eq_none]
        intro x hx
        simp [hex x hx]
      have hb : (remove_list db lid).lists.find?
          (fun l => l.«open» && l.user_id == u) = none := by
        rw [List.find?_eq_none]
        intro x hx
        simp [hex x (List.mem_of_mem_filter hx)]
      rw [ha, hb]
  refine ⟨⟨?_, ?_⟩, ?_, ?_⟩
  · simp [get_items, h1]
  · simp [get_items, h2]
  · intro iid s t
    exact ⟨by simp [update_item, h1], by simp [update_item, h2]⟩
  · intro o t
    by_cases hguard : (o == some true && (first_open_list db u).isSome) = true
    · have hguard' : (o == some true
          && (first_open_list (remove_list db lid) u).isSome) = true := by
        rw [h3]; exact hguard
      constructor
      · simp [update_list, hguard, hguard']
      · simp [update_list, hguard]
    · have hguard' : ¬(o == some true
          && (first_open_list (remove_list db lid) u).isSome) = true := by
        rw [h3]; exact hguard
      constructor
      · simp [update_list, hguard, hguard', h1, h2]
      · simp [update_list, hguard, h1]

/-- C6 (amended): states differing only in whether the referenced list —
or, with the list reference fixed, the referenced item — exists under a
different owner versus not at all are indistinguishable through the
resolving operations.  First half: when every list carrying the referenced
id is foreign to the caller, the state and its companion with that list
(and its items) erased agree: `get_items` and `update_item` answer
not-found in both, and `update_list` answers identically in both — never
forbidden — though with `requested_open = true` while the caller owns an
open list that common answer is the bad-request conflict rather than
not-found.  Second half: when every item carrying the referenced id
belongs to a different list than the referenced one (a foreign item, also
under a list the caller does resolve), `update_item` answers not-found,
and identically so in the companion state with that item erased — never
forbidden. -/
theorem foreign_indistinguishable_from_absent (db : DB) (u lid lid2 iid : Nat) :
    ((∀ l ∈ db.lists, l.id = lid → l.user_id ≠ u) →
      (get_items db u lid = Resp.notFound
          ∧ get_items (remove_list db lid) u lid = Resp.notFound)
        ∧ (∀ iid' : Nat, ∀ s : SubmitItem, ∀ t : Nat,
            (update_item db u (some lid) (some iid') s t).1 = Resp.notFound
              ∧ (update_item (remove_list db lid) u (some lid) (some iid') s t).1
                  = Resp.notFound)
        ∧ (∀ o : Option Bool, ∀ t : Nat,
            (update_list db u o lid t).1
                = (update_list (remove_list db lid) u o lid t).1
              ∧ (update_list db u o lid t).1 ≠ Resp.forbidden))
    ∧ ((∀ i ∈ db.items, i.id = iid → i.list_id ≠ lid2) →
      ∀ s : SubmitItem, ∀ t : Nat,
        (update_item db u (some lid2) (some iid) s t).1 = Resp.notFound
          ∧ (update_item (remove_item db iid) u (some lid2) (some iid) s t).1
              = Resp.notFound
          ∧ (update_item db u (some lid2) (some iid) s t).1
              = (update_item (remove_item db iid) u (some lid2) (some iid) s t).1
          ∧ (update_item db u (some lid2) (some iid) s t).1 ≠ Resp.forbidden) := by
  constructor
  · intro hforeign
    exact foreign_list_part db u lid hforeign
  · intro hitem
    intro s t
    have hfind1 : db.items.find?
        (fun i => i.id == iid && i.list_id == lid2) = none := by
      rw [List.find?_eq_none]
      intro i hi hpi
      simp only [Bool.and_eq_true, beq_iff_eq] at hpi
      exact hitem i hi hpi.1 hpi.2
    have hfind2 : (remove_item db iid).items.find?
        (fun i => i.id == iid && i.list_id == lid2) = none := by
      rw [List.find?_eq_none]
      intro i hi hpi
      simp only [remove_item, List.mem_filter, Bool.not_eq_true'] at hi
      simp only [Bool.and_eq_true, beq_iff_eq] at hpi
      exact absurd hpi.1 (by simpa using hi.2)
    have hn1 : (update_item db u (some lid2) (some iid) s t).1 = Resp.notFound := by
      cases hres : resolve_owned_list db u lid2 with
      | none => simp [update_item, hres]
      | some sl => simp [update_item, hres, hfind1]
    have hn2 : (update_item (remove_item db iid) u (some lid2) (some iid) s t).1
        = Resp.notFound := by
      cases hres : resolve_owned_list (remove_item db iid) u lid2 with
      | none => simp [update_item, hres]
      | some sl => simp [update_item, hres, hfind2]
    refine ⟨hn1, hn2, by rw [hn1, hn2], by rw [hn1]; simp⟩

/-- Witness for C6's amended theorem at a concrete state: list 2 and
item 4 are foreign to user 7, while user 7's own list 1 resolves. -/
theorem foreign_indistinguishable_from_absent_witness :
    ((∀ l ∈ exdb_foreign_items.lists, l.id = 2 → l.user_id ≠ 7)
        ∧ (∀ i ∈ exdb_foreign_items.items, i.id = 4 → i.list_id ≠ 1))
      ∧ (((get_items exdb_foreign_items 7 2 = Resp.notFound
            ∧ get_items (remove_list exdb_foreign_items 2) 7 2 = Resp.notFound)
          ∧ (∀ iid' : Nat, ∀ s : SubmitItem, ∀ t : Nat,
              (update_item exdb_foreign_items 7 (some 2) (some iid') s t).1
                  = Resp.notFound
                ∧ (update_item (remove_list exdb_foreign_items 2) 7 (some 2)
                      (some iid') s t).1 = Resp.notFound)
          ∧ (∀ o : Option Bool, ∀ t : Nat,
              (update_list exdb_foreign_items 7 o 2 t).1
                  = (update_list (remove_list exdb_foreign_items 2) 7 o 2 t).1
                ∧ (update_list exdb_foreign_items 7 o 2 t).1 ≠ Resp.forbidden))
        ∧ (∀ s : SubmitItem, ∀ t : Nat,
            (update_item exdb_foreign_items 7 (some 1) (some 4) s t).1
                = Resp.notFound
              ∧ (update_item (remove_item exdb_foreign_items 4) 7 (some 1)
                    (some 4) s t).1 = Resp.notFound
              ∧ (update_item exdb_foreign_items 7 (some 1) (some 4) s t).1
                  = (update_item (remove_item exdb_foreign_items 4) 7 (some 1)
                      (some 4) s t).1
              ∧ (update_item exdb_foreign_items 7 (some 1) (some 4) s t).1
                  ≠ Resp.forbidden)) :=
  ⟨⟨by decide, by decide⟩,
   ⟨(foreign_indistinguishable_from_absent exdb_foreign_items 7 2 1 4).1 (by decide),
    (foreign_indistinguishable_from_absent exdb_foreign_items 7 2 1 4).2 (by decide)⟩⟩

/-- C7: `update_item` persists only the `open` flag: with unique item
primary keys, the stored (id, name) pairs of the item table are unchanged
by any call, and a successfully returned item carries the name the stored
item already had — even when the submitted payload supplies a different
name. -/
theorem update_item_preserves_names (db : DB) (u : Nat)
    (lid iid : Option Nat) (s : SubmitItem) (t : Nat)
    (hwf : (db.items.map (fun i => i.id)).Nodup) :
    ((update_item db u lid iid s t).2.items.map (fun i => (i.id, i.name))
        = db.items.map (fun i => (i.id, i.name)))
      ∧ (∀ it', (update_item db u lid iid s t).1 = Resp.ok it' →
          ∃ j ∈ db.items, j.id = it'.id ∧ j.name = it'.name) := by
  rcases update_item_cases db u lid iid s t with ⟨heq, hnok⟩ | ⟨l, i, it, _, _, hfind, heq⟩
  · refine ⟨by rw [heq], ?_⟩
    intro it' h
    exact absurd h (hnok it')
  · have hmem : it ∈ db.items := List.mem_of_find?_eq_some hfind
    have heq2 : (update_item db u lid iid s t).2
        = { db with items := db.items.map (fun j =>
            if j.id == it.id then { it with «open» := s.«open» } else j) } := by rw [heq]
    have heq1 : (update_item db u lid iid s t).1
        = Resp.ok { it with «open» := s.«open» } := by rw [heq]
    constructor
    · rw [heq2]
      exact map_replace_preserves (fun j : Item => j.id)
        (fun j : Item => (j.id, j.name)) db.items hwf it
        { it with «open» := s.«open» } hmem rfl rfl
    · intro it' h
      rw [heq1] at h
      cases h
      exact ⟨it, hmem, rfl, rfl⟩

/-- Witness for C7 at a concrete state, with a payload that tries to
rename the item. -/
theorem update_item_preserves_names_witness :
    (exdb.items.map (fun i => i.id)).Nodup
      ∧ (((update_item exdb 7 (some 1) (some 3) ⟨"Renamed", false⟩ 0).2.items.map
            (fun i => (i.id, i.name)) = exdb.items.map (fun i => (i.id, i.name)))
          ∧ (∀ it', (update_item exdb 7 (some 1) (some 3) ⟨"Renamed", false⟩ 0).1
              = Resp.ok it' → ∃ j ∈ exdb.items, j.id = it'.id ∧ j.name = it'.name)) :=
  ⟨by decide,
   update_item_preserves_names exdb 7 (some 1) (some 3) ⟨"Renamed", false⟩ 0 (by decide)⟩

/-- C8 counterexample: at call time 5, successfully closing list 1 (stored
timestamp 0) stores and returns the list with `updated` still 0, and
likewise toggling item 3 leaves its `updated` at 0: the timestamps are not
refreshed (5 ≠ 0), contrary to the claim. -/
theorem updated_timestamp_not_refreshed_cex :
    update_list exdb 7 (some false) 1 5
        = (Resp.ok ⟨1, 7, false, 0, 0⟩,
           { lists := [⟨1, 7, false, 0, 0⟩], items := exdb.items })
      ∧ update_item exdb 7 (some 1) (some 3) ⟨"Milk", false⟩ 5
          = (Resp.ok ⟨3, 1, false, "Milk", 0, 0⟩,
             { lists := exdb.lists, items := [⟨3, 1, false, "Milk", 0, 0⟩] })
      ∧ (5 : Nat) ≠ 0 := by decide

/-- C8 (amended): successful updates persist the new `open` flag but never
refresh the `updated` timestamp: with unique primary keys, the stored
(id, updated) pairs of both tables are unchanged by `update_list` and
`update_item`, and a successfully returned entity carries its prior
timestamp together with the newly applied `open` value. -/
theorem updates_do_not_refresh_timestamps (db : DB) (u : Nat) (b : Bool)
    (lid t : Nat) (lidi iidi : Option Nat) (s : SubmitItem)
    (hwfL : (db.lists.map (fun l => l.id)).Nodup)
    (hwfI : (db.items.map (fun i => i.id)).Nodup) :
    ((update_list db u (some b) lid t).2.lists.map (fun l => (l.id, l.updated))
        = db.lists.map (fun l => (l.id, l.updated)))
      ∧ ((update_item db u lidi iidi s t).2.items.map (fun i => (i.id, i.updated))
          = db.items.map (fun i => (i.id, i.updated)))
      ∧ (∀ sl', (update_list db u (some b) lid t).1 = Resp.ok sl' →
          sl'.«open» = b ∧ ∃ l ∈ db.lists, l.id = sl'.id ∧ l.updated = sl'.updated)
      ∧ (∀ it', (update_item db u lidi iidi s t).1 = Resp.ok it' →
          it'.«open» = s.«open»
            ∧ ∃ j ∈ db.items, j.id = it'.id ∧ j.updated = it'.updated) := by
  have hlist : ((update_list db u (some b) lid t).2.lists.map
        (fun l => (l.id, l.updated)) = db.lists.map (fun l => (l.id, l.updated)))
      ∧ ∀ sl', (update_list db u (some b) lid t).1 = Resp.ok sl' →
          sl'.«open» = b ∧ ∃ l ∈ db.lists, l.id = sl'.id ∧ l.updated = sl'.updated := by
    rcases update_list_cases db u (some b) lid t with ⟨heq, hnok⟩ |
      ⟨sl, b', ho, hres, hguard, heq⟩
    · refine ⟨by rw [heq], ?_⟩
      intro sl' h
      exact absurd h (hnok sl')
    · injection ho with hb
      subst hb
      have hmem : sl ∈ db.lists := by
        unfold resolve_owned_list at hres
        exact List.mem_of_find?_eq_some hres
      have heq2 : (update_list db u (some b) lid t).2
          = { db with lists := db.lists.map (fun l =>
              if l.id == sl.id then { sl with «open» := b } else l) } := by rw [heq]
      have heq1 : (update_list db u (some b) lid t).1
          = Resp.ok { sl with «open» := b } := by rw [heq]
      constructor
      · rw [heq2]
        exact map_replace_preserves (fun l : ShoppingList => l.id)
          (fun l : ShoppingList => (l.id, l.updated)) db.lists hwfL sl
          { sl with «open» := b } hmem rfl rfl
      · intro sl' h
        rw [heq1] at h
        cases h
        exact ⟨rfl, sl, hmem, rfl, rfl⟩
  have hitem : ((update_item db u lidi iidi s t).2.items.map
        (fun i => (i.id, i.updated)) = db.items.map (fun i => (i.id, i.updated)))
      ∧ ∀ it', (update_item db u lidi iidi s t).1 = Resp.ok it' →
          it'.«open» = s.«open»
            ∧ ∃ j ∈ db.items, j.id = it'.id ∧ j.updated = it'.updated := by
    rcases update_item_cases db u lidi iidi s t with ⟨heq, hnok⟩ |
      ⟨l, i, it, _, _, hfind, heq⟩
    · refine ⟨by rw [heq], ?_⟩
      intro it' h
      exact absurd h (hnok it')
    · have hmem : it ∈ db.items := List.mem_of_find?_eq_some hfind
      have heq2 : (update_item db u lidi iidi s t).2
          = { db with items := db.items.map (fun j =>
              if j.id == it.id then { it with «open» := s.«open» } else j) } := by rw [heq]
      have heq1 : (update_item db u lidi iidi s t).1
          = Resp.ok { it with «open» := s.«open» } := by rw [heq]
      constructor
      · rw [heq2]
        exact map_replace_preserves (fun j : Item => j.id)
          (fun j : Item => (j.id, j.updated)) db.items hwfI it
          { it with «open» := s.«open» } hmem rfl rfl
      · intro it' h
        rw [heq1] at h
        cases h
        exact ⟨rfl, it, hmem, rfl, rfl⟩
  exact ⟨hlist.1, hitem.1, hlist.2, hitem.2⟩

/-- Witness for C8's amended theorem at a concrete state. -/
theorem updates_do_not_refresh_timestamps_witness :
    ((exdb.lists.map (fun l => l.id)).Nodup
        ∧ (exdb.items.map (fun i => i.id)).Nodup)
      ∧ (((update_list exdb 7 (some false) 1 5).2.lists.map (fun l => (l.id, l.updated))
            = exdb.lists.map (fun l => (l.id, l.updated)))
          ∧ ((update_item exdb 7 (some 1) (some 3) ⟨"Milk", false⟩ 5).2.items.map
                (fun i => (i.id, i.updated))
              = exdb.items.map (fun i => (i.id, i.updated)))
          ∧ (∀ sl', (update_list exdb 7 (some false) 1 5).1 = Resp.ok sl' →
              sl'.«open» = false
                ∧ ∃ l ∈ exdb.lists, l.id = sl'.id ∧ l.updated = sl'.updated)
          ∧ (∀ it', (update_item exdb 7 (some 1) (some 3) ⟨"Milk", false⟩ 5).1
                = Resp.ok it' →
              it'.«open» = (⟨"Milk", false⟩ : SubmitItem).«open»
                ∧ ∃ j ∈ exdb.items, j.id = it'.id ∧ j.updated = it'.updated)) :=
  ⟨⟨by decide, by decide⟩,
   updates_do_not_refresh_timestamps exdb 7 false 1 5 (some 1) (some 3)
     ⟨"Milk", false⟩ (by decide) (by decide)⟩

/-! ### C10: `create_list` ignores the submitted list-level `open` value -/

theorem new_items_of_names_opens (items : List SubmitItem) (nl : Nat)
    (ni : Nat → Nat) (t : Nat) :
    (new_items_of items nl ni t).map (fun i => (i.name, i.«open»))
      = items.map (fun si => (si.name, si.«open»)) := by
  unfold new_items_of
  rw [List.map_map]
  have hfun : ((fun i : Item => (i.name, i.«open»)) ∘ (fun p : Nat × SubmitItem =>
      ({ id := ni p.1, list_id := nl, «open» := p.2.«open», name := p.2.name,
         created := t, updated := t } : Item)))
      = (fun si : SubmitItem => (si.name, si.«open»)) ∘ Prod.snd := by
    funext p
    rfl
  rw [hfun, ← List.map_map, List.enum_map_snd]

/-- C10: every successful `create_list` call stores and returns the new
list with `open = true` regardless of the submitted list-level `open`
value, and persists the submitted items' names and `open` flags as given,
in submission order. -/
theorem create_list_forces_open (db : DB) (u : Nat) (b : Bool)
    (items : List SubmitItem) (nl : Nat) (ni : Nat → Nat) (t : Nat)
    (sl : ShoppingList)
    (hok : (create_list db u ⟨b, some items⟩ nl ni t).1 = Resp.ok sl) :
    sl.«open» = true
      ∧ (create_list db u ⟨b, some items⟩ nl ni t).2.lists = db.lists ++ [sl]
      ∧ (create_list db u ⟨b, some items⟩ nl ni t).2.items.map
            (fun i => (i.name, i.«open»))
          = db.items.map (fun i => (i.name, i.«open»))
              ++ items.map (fun si => (si.name, si.«open»)) := by
  rcases create_list_cases db u ⟨b, some items⟩ nl ni t with ⟨_, hnok⟩ |
    ⟨items', hfo, hit, hlen, hpk, heq⟩
  · exact absurd hok (hnok sl)
  · have hii : items = items' := by
      have h' : (some items : Option (List SubmitItem)) = some items' := hit
      injection h'
    subst hii
    have heq1 : (create_list db u ⟨b, some items⟩ nl ni t).1
        = Resp.ok (new_list_of u nl t) := by rw [heq]
    have heq2 : (create_list db u ⟨b, some items⟩ nl ni t).2
        = { lists := db.lists ++ [new_list_of u nl t],
            items := db.items ++ new_items_of items nl ni t } := by rw [heq]
    rw [heq1] at hok
    cases hok
    refine ⟨rfl, by rw [heq2], ?_⟩
    have hmap : (db.items ++ new_items_of items nl ni t).map
          (fun i => (i.name, i.«open»))
        = db.items.map (fun i => (i.name, i.«open»))
            ++ items.map (fun si => (si.name, si.«open»)) := by
      rw [List.map_append, new_items_of_names_opens]
    rw [heq2]
    exact hmap

/-- Witness for C10 at a concrete state: the client submits
`open = false`, yet the stored list is open. -/
theorem create_list_forces_open_witness :
    ((create_list (DB.mk [] []) 7 ⟨false, some [⟨"Milk", true⟩, ⟨"Eggs", false⟩]⟩
          5 (fun i => 100 + i) 2).1
        = Resp.ok ⟨5, 7, true, 2, 2⟩)
      ∧ ((⟨5, 7, true, 2, 2⟩ : ShoppingList).«open» = true
          ∧ (create_list (DB.mk [] []) 7 ⟨false, some [⟨"Milk", true⟩, ⟨"Eggs", false⟩]⟩
                5 (fun i => 100 + i) 2).2.lists
              = (DB.mk [] []).lists ++ [⟨5, 7, true, 2, 2⟩]
          ∧ (create_list (DB.mk [] []) 7 ⟨false, some [⟨"Milk", true⟩, ⟨"Eggs", false⟩]⟩
                5 (fun i => 100 + i) 2).2.items.map (fun i => (i.name, i.«open»))
              = (DB.mk [] []).items.map (fun i => (i.name, i.«open»))
                  ++ [⟨"Milk", true⟩, ⟨"Eggs", false⟩].map
                      (fun si : SubmitItem => (si.name, si.«open»))) :=
  ⟨by decide,
   create_list_forces_open (DB.mk [] []) 7 false [⟨"Milk", true⟩, ⟨"Eggs", false⟩]
     5 (fun i => 100 + i) 2 ⟨5, 7, true, 2, 2⟩ (by decide)⟩

end ShoppingListAPI
